import Mathlib

/-!
# ddns-updater: the root command (`cmd/root.go`)

A shallow embedding of `rootCmd.Run`, `fatal`, `getIp` and `updateIp`.

The program is sequential glue over the file system, two HTTP calls and the
standard output.  Each external call is recorded as an `Event` in a trace, its
answer is taken from a `World`, and the way the process ends (normal return,
`os.Exit`, Go runtime panic) is the result of the program.

Strings are Lean strings (sequences of Unicode code points), which is what Go
strings holding valid UTF-8 are to `strings.TrimSpace` and `strings.Trim`.
-/

namespace DdnsUpdater

/-! ## Go standard library: strings, strconv -/

/-- Go `unicode.IsSpace`: the code points with the Unicode White_Space property. -/
def isSpace (c : Char) : Bool :=
  let n := c.toNat
  n == 0x09 || n == 0x0A || n == 0x0B || n == 0x0C || n == 0x0D || n == 0x20
    || n == 0x85 || n == 0xA0 || n == 0x1680 || (0x2000 ≤ n && n ≤ 0x200A)
    || n == 0x2028 || n == 0x2029 || n == 0x202F || n == 0x205F || n == 0x3000

/-- Go `strings.TrimFunc` on code points: drop the leading and the trailing
code points that satisfy `p`. -/
def trimFunc (p : Char → Bool) (l : List Char) : List Char :=
  ((l.dropWhile p).reverse.dropWhile p).reverse

/-- Go `strings.TrimSpace`. -/
def TrimSpace (s : String) : String :=
  ⟨trimFunc isSpace s.data⟩

/-- Go `strings.Trim(s, cutset)`: drop the leading and trailing code points
contained in `cutset`. -/
def Trim (s cutset : String) : String :=
  ⟨trimFunc (fun c => cutset.data.contains c) s.data⟩

/-- Value of a decimal digit, `none` for any other code point. -/
def digitVal (c : Char) : Option Nat :=
  if 48 ≤ c.toNat ∧ c.toNat ≤ 57 then some (c.toNat - 48) else none

/-- Decimal digits to a natural number, `none` when a non-digit occurs. -/
def parseDigits : List Char → Nat → Option Nat
  | [], acc => some acc
  | c :: cs, acc =>
    match digitVal c with
    | some d => parseDigits cs (acc * 10 + d)
    | none => none

/-- Go `strconv.Atoi` on a 64-bit platform: an optional sign followed by at
least one decimal digit, the value within the range of `int`; `none` stands for
a non-nil error. -/
def Atoi (s : String) : Option Int :=
  let signed : Bool × List Char :=
    match s.data with
    | '-' :: r => (true, r)
    | '+' :: r => (false, r)
    | r => (false, r)
  if signed.2 = [] then none
  else
    match parseDigits signed.2 0 with
    | none => none
    | some n =>
      if signed.1 then (if n ≤ 2 ^ 63 then some (-(n : Int)) else none)
      else (if n < 2 ^ 63 then some (n : Int) else none)

/-! ## Configuration, the outside world and its trace -/

/-- The values `Run` reads from viper and from the `verbose` flag variable. -/
structure Config where
  host : String
  domain : String
  token : String
  ipResolvers : List String
  cacheFile : String
  verbose : Bool
deriving DecidableEq, Repr

/-- The request built by `updateIp`: `http.NewRequest("GET", u.String(), nil)`
where `u` is the parsed fixed URL with `RawQuery = vals.Encode()`, plus the
headers added.  `query` holds the `url.Values` map that is encoded. -/
structure Request where
  method : String
  url : String
  query : List (String × List String)
  header : List (String × String)
deriving DecidableEq, Repr

/-- An external effect of the run, in program order. -/
inductive Event where
  /-- Bytes written to the standard output. -/
  | print (s : String)
  /-- Call of `os.Stat(path)`. -/
  | stat (path : String)
  /-- Call of `os.ReadFile(path)`. -/
  | readFile (path : String)
  /-- Call of `http.Get(url)`, from `getIp`. -/
  | httpGet (url : String)
  /-- Call of `client.Do(req)`, from `updateIp`: the update request. -/
  | clientDo (req : Request)
  /-- Call of `os.WriteFile(path, data, perm)`. -/
  | writeFile (path : String) (data : String) (perm : Nat)
deriving DecidableEq, Repr

/-- A node of the xmlquery library, seen through the one method the program
calls on it. -/
structure Node where
  InnerText : String
deriving DecidableEq, Repr

/-- A document parsed by the xmlquery library, seen through
`xmlquery.FindOne(doc, expr)`: the first node matching the expression, `none`
for the nil node returned when nothing matches. -/
structure Document where
  FindOne : String → Option Node

/-- Answer of `http.Get`: a transport error, or a response with its status code
and what `ioutil.ReadAll(resp.Body)` gives. -/
inductive GetResult where
  | transportError (err : String)
  | response (statusCode : Nat) (body : Except String String)

/-- Answer of `client.Do`: a transport error, or a response with its status
code, its status line and what `xmlquery.Parse(resp.Body)` gives (`none` for the
nil document returned together with a parse error). -/
inductive DoResult where
  | transportError (err : String)
  | response (statusCode : Nat) (status : String) (doc : Option Document)

/-- The answers of the outside world to the calls of one run. -/
structure World where
  /-- Whether `os.IsNotExist(err)` holds for the error of `os.Stat(path)`. -/
  isNotExist : String → Bool
  /-- Result of `os.ReadFile(path)`. -/
  readFile : String → Except String String
  /-- Result of the `i`-th `http.Get` of the resolver scan, on the given URL. -/
  httpGet : Nat → String → GetResult
  /-- Result of `client.Do(req)`. -/
  clientDo : Request → DoResult
  /-- Result of `os.WriteFile(path, data, perm)`: `none` for a nil error. -/
  writeFile : String → String → Nat → Option String

/-- How a computation stops the process early. -/
inductive Halt where
  /-- Call of `os.Exit(code)`. -/
  | exit (code : Nat)
  /-- A Go runtime panic (nil pointer dereference). -/
  | panicked
deriving DecidableEq, Repr

/-- Result of a computation: a value, or the process stopped. -/
inductive Res (α : Type) where
  | ok (a : α)
  | halt (h : Halt)
deriving DecidableEq, Repr

/-- A computation that has run: the effects it performed and its result. -/
structure Prog (α : Type) where
  trace : List Event
  res : Res α

/-- Sequencing: the effects of `m`, then those of `f`, unless `m` stopped the
process. -/
def Prog.bind {α β : Type} (m : Prog α) (f : α → Prog β) : Prog β :=
  match m.res with
  | .ok a => ⟨m.trace ++ (f a).trace, (f a).res⟩
  | .halt h => ⟨m.trace, .halt h⟩

instance : Monad Prog where
  pure a := ⟨[], .ok a⟩
  bind := Prog.bind

/-- One external call, recorded. -/
def emit (e : Event) : Prog Unit := ⟨[e], .ok ()⟩

/-- Go `fmt.Println(s)` for a string or an error. -/
def Println (s : String) : Prog Unit := emit (.print (s ++ "\n"))

/-- Go `fmt.Print(s)` and `fmt.Printf` once formatted. -/
def Print (s : String) : Prog Unit := emit (.print s)

/-- Go `os.Exit(code)`. -/
def Exit {α : Type} (code : Nat) : Prog α := ⟨[], .halt (.exit code)⟩

/-- A Go runtime panic. -/
def goPanic {α : Type} : Prog α := ⟨[], .halt .panicked⟩

/-- Exit status of the process: the code given to `os.Exit`, 2 for a Go runtime
panic, and 0 when `Run` returns (cobra reports no error, `Execute` and `main`
return). -/
def exitStatus {α : Type} : Res α → Nat
  | .ok _ => 0
  | .halt (.exit code) => code
  | .halt .panicked => 2

/-! ## The program -/

/-- Source `fatal`. -/
def fatal {α : Type} (msg : String) : Prog α := do
  Println msg
  Exit 1

/-- Source `getIp`. -/
def getIp (w : World) (i : Nat) (domain : String) : Prog (Except String String) := do
  emit (.httpGet domain)
  match w.httpGet i domain with
  | .transportError err =>
    return .error ("Failed to make request to get IP: " ++ err)
  | .response statusCode body =>
    if statusCode ≠ 200 then
      return .error ("Non 200 status code returned when attempting to resolve public IP: "
        ++ toString statusCode)
    else
      match body with
      | .error err => return .error ("Failed to read response body: " ++ err)
      | .ok bytes => return .ok (TrimSpace bytes)

/-- The request `updateIp` builds. -/
def updateRequest (host domain token : String) : Request :=
  { method := "GET"
    url := "https://dynamicdns.park-your-domain.com/update"
    query := [("host", [host]), ("domain", [domain]), ("password", [token])]
    header := [("Accept", "application/json")] }

/-- Source `updateIp`; `none` is the nil error.  `url.Parse` of the fixed URL
cannot fail.  The body never reads `ip`.  The error of `xmlquery.Parse` is not
looked at: on a nil document, or on the nil node of a failed `FindOne`, the call
of `InnerText` dereferences nil and the Go runtime panics. -/
def updateIp (w : World) (ip host domain token : String) : Prog (Option String) := do
  let req := updateRequest host domain token
  emit (.clientDo req)
  match w.clientDo req with
  | .transportError err =>
    return some ("Failed to make ddns update request: " ++ err)
  | .response statusCode status doc =>
    if statusCode ≠ 200 then
      return some ("Request returned non 200 status code: " ++ status)
    else
      match doc with
      | none => goPanic
      | some doc =>
        match doc.FindOne "//ErrCount" with
        | none => goPanic
        | some responseError =>
          match Atoi responseError.InnerText with
          | none =>
            return some "Failed to convert namecheap response error count to integer"
          | some numOfErrors =>
            if numOfErrors > 0 then
              match doc.FindOne "//Err1" with
              | none => goPanic
              | some err1 =>
                return some ("Namecheap api returned error(s): " ++ err1.InnerText)
            else
              return none

/-- Source `rootCmd.Run`, the block printing the configuration when verbose. -/
def printConfig (cfg : Config) : Prog Unit := do
  if cfg.verbose then
    Println "Config info:"
    Print ("  Namecheap domain: '" ++ cfg.domain ++ "'\n")
    Print ("  Namecheap host: '" ++ cfg.host ++ "'\n")
    Print ("  Namecheap token: '" ++ cfg.token ++ "'\n")
    Print ("  Ip resolvers: '" ++ String.intercalate "," cfg.ipResolvers ++ "'\n")
    Print ("  Cache file: '" ++ cfg.cacheFile ++ "'\n")
    Print "\n\n"

/-- Source `rootCmd.Run`, the block that loads `oldIp` from the cache file. -/
def loadCache (cfg : Config) (w : World) : Prog String := do
  if cfg.cacheFile ≠ "" then
    emit (.stat cfg.cacheFile)
    if w.isNotExist cfg.cacheFile then
      if cfg.verbose then
        Println "No cache file found"
      return ""
    else
      if cfg.verbose then
        Println "IP Cache found! Reading..."
      emit (.readFile cfg.cacheFile)
      match w.readFile cfg.cacheFile with
      | .error err => fatal ("Failed to read file: " ++ err)
      | .ok bytes =>
        let oldIp := Trim bytes "\n"
        if cfg.verbose then
          Println ("Old Ip is: " ++ oldIp)
        return oldIp
  else
    return ""

/-- Source `rootCmd.Run`, the loop over `ipResolvers` from position `i` on: the
value is `currentIp` after the loop. -/
def resolve (verbose : Bool) (w : World) : Nat → List String → Prog String
  | _, [] => pure ""
  | i, domain :: rest => do
    let r ← getIp w i domain
    match r with
    | .ok ip =>
      if verbose then
        Println ("Successfully resolved current IP: " ++ ip)
      return ip
    | .error err =>
      Println err
      resolve verbose w (i + 1) rest

/-- Source `rootCmd.Run`. -/
def Run (cfg : Config) (w : World) : Prog Unit := do
  let namecheapHost := cfg.host
  let namecheapDomain := cfg.domain
  let namecheapToken := cfg.token
  if namecheapHost = "" then
    fatal "Namecheap host must be specified! Remember to specify it with -n"
  if namecheapDomain = "" then
    fatal "Namecheap domain must be specified! Remember to specify it with -d"
  if namecheapToken = "" then
    fatal "Namecheap token must be specified! Remember to specify it with -t"
  let ipResolvers := cfg.ipResolvers
  let cacheFile := cfg.cacheFile
  printConfig cfg
  let oldIp ← loadCache cfg w
  let currentIp ← resolve cfg.verbose w 0 ipResolvers
  if currentIp = "" then
    fatal "Failed to resolve IP using any provided ip resolvers!"
  if oldIp = currentIp then
    Println "IPs are the same..."
    Exit 0
  let err ← updateIp w currentIp namecheapHost namecheapDomain namecheapToken
  match err with
  | some msg => fatal msg
  | none => pure ()
  if cacheFile ≠ "" then
    emit (.writeFile cacheFile currentIp 0o644)
    match w.writeFile cacheFile currentIp 0o644 with
    | some werr => fatal ("Failed to write to cache file: " ++ werr)
    | none => pure ()
  Println "Success!"

/-- The endpoint answers as `getIp` needs: no transport error, status 200, body
fully read. -/
def GetResult.succeeds : GetResult → Bool
  | .response statusCode (.ok _) => statusCode == 200
  | _ => false

/-- Update requests of a trace, in order. -/
def updates : List Event → List Request
  | [] => []
  | .clientDo r :: t => r :: updates t
  | _ :: t => updates t

/-- Cache writes of a trace, in order. -/
def writes : List Event → List (String × String × Nat)
  | [] => []
  | .writeFile p d m :: t => (p, d, m) :: writes t
  | _ :: t => writes t

/-- URLs of the resolver GETs of a trace, in order. -/
def gets : List Event → List String
  | [] => []
  | .httpGet u :: t => u :: gets t
  | _ :: t => gets t

/-- File-system calls on the cache file (stat and read) of a trace, in order. -/
def cacheReads : List Event → List String
  | [] => []
  | .stat p :: t => p :: cacheReads t
  | .readFile p :: t => p :: cacheReads t
  | _ :: t => cacheReads t

/-! ## Sample inputs -/

/-- A valid configuration with the default resolvers and cache file. -/
def sampleConfig : Config :=
  { host := "www"
    domain := "example.com"
    token := "secret"
    ipResolvers := ["http://icanhazip.com", "http://checkip.amazonaws.com"]
    cacheFile := "ip-cache"
    verbose := false }

/-- The parsed form of `<Response><ErrCount>0</ErrCount></Response>`. -/
def okDocument : Document :=
  ⟨fun expr => if expr = "//ErrCount" then some ⟨"0"⟩ else none⟩

/-- The parsed form of
`<Response><ErrCount>1</ErrCount><Err1>Invalid token</Err1></Response>`. -/
def errDocument : Document :=
  ⟨fun expr =>
    if expr = "//ErrCount" then some ⟨"1"⟩
    else if expr = "//Err1" then some ⟨"Invalid token"⟩
    else none⟩

/-- The parsed form of `<Response></Response>`: no `ErrCount` node. -/
def bareDocument : Document :=
  ⟨fun _ => none⟩

/-- No cache file, the first resolver answers 500 and the second `5.6.7.8`, the
provider accepts the update, the cache file can be written. -/
def freshWorld : World :=
  { isNotExist := fun _ => true
    readFile := fun _ => .error "open ip-cache: no such file or directory"
    httpGet := fun i _ =>
      if i = 0 then .response 500 (.ok "oops") else .response 200 (.ok "5.6.7.8\n")
    clientDo := fun _ => .response 200 "200 OK" (some okDocument)
    writeFile := fun _ _ _ => none }

/-- As `freshWorld`, with a cache file holding `5.6.7.8`. -/
def cachedWorld : World :=
  { freshWorld with
    isNotExist := fun _ => false
    readFile := fun _ => .ok "5.6.7.8" }

/-- As `freshWorld`, but the cache file cannot be written. -/
def readOnlyWorld : World :=
  { freshWorld with
    writeFile := fun _ _ _ => some "open ip-cache: permission denied" }

/-- As `freshWorld`, but the provider rejects the token. -/
def rejectingWorld : World :=
  { freshWorld with
    clientDo := fun _ => .response 200 "200 OK" (some errDocument) }

/-- As `freshWorld`, but the provider answers 200 with XML lacking `ErrCount`. -/
def bareWorld : World :=
  { freshWorld with
    clientDo := fun _ => .response 200 "200 OK" (some bareDocument) }

/-- As `freshWorld`, but the provider answers 200 with a body that is not XML. -/
def garbledWorld : World :=
  { freshWorld with
    clientDo := fun _ => .response 200 "200 OK" none }

/-- An empty cache file, and a first resolver that answers 200 with a body of
one newline; the second would answer `5.6.7.8`. -/
def blankWorld : World :=
  { freshWorld with
    isNotExist := fun _ => false
    readFile := fun _ => .ok ""
    httpGet := fun i _ =>
      if i = 0 then .response 200 (.ok "\n") else .response 200 (.ok "5.6.7.8\n") }

/-- Every resolver answers 503. -/
def downWorld : World :=
  { freshWorld with
    httpGet := fun _ _ => .response 503 (.ok "") }

/-- As `freshWorld`, but the provider answers 200 with `ErrCount` text `one`. -/
def wordyWorld : World :=
  { freshWorld with
    clientDo := fun _ => .response 200 "200 OK" (some ⟨fun _ => some ⟨"one"⟩⟩) }

/-- The first two resolver GETs are answered 500, the third `9.9.9.9` followed
by a newline. -/
def lateWorld : World :=
  { freshWorld with
    httpGet := fun i _ =>
      if i < 2 then .response 500 (.ok "") else .response 200 (.ok "9.9.9.9\n") }

/-! ## Sequencing lemmas -/

theorem bind_def {α β : Type} (m : Prog α) (f : α → Prog β) : (m >>= f) = Prog.bind m f := rfl

theorem pure_def {α : Type} (a : α) : (pure a : Prog α) = ⟨[], .ok a⟩ := rfl

theorem bind_of_ok {α β : Type} (m : Prog α) (f : α → Prog β) (a : α) (h : m.res = .ok a) :
    (m >>= f) = ⟨m.trace ++ (f a).trace, (f a).res⟩ := by
  simp [bind_def, Prog.bind, h]

theorem bind_of_halt {α β : Type} (m : Prog α) (f : α → Prog β) (x : Halt)
    (h : m.res = .halt x) : (m >>= f) = ⟨m.trace, .halt x⟩ := by
  simp [bind_def, Prog.bind, h]

theorem fatal_eq {α : Type} (msg : String) :
    (fatal msg : Prog α) = ⟨[.print (msg ++ "\n")], .halt (.exit 1)⟩ := rfl

@[simp] theorem updates_append (s t : List Event) : updates (s ++ t) = updates s ++ updates t := by
  induction s with
  | nil => rfl
  | cons e s ih => cases e <;> simp [updates, ih]

@[simp] theorem writes_append (s t : List Event) : writes (s ++ t) = writes s ++ writes t := by
  induction s with
  | nil => rfl
  | cons e s ih => cases e <;> simp [writes, ih]

@[simp] theorem gets_append (s t : List Event) : gets (s ++ t) = gets s ++ gets t := by
  induction s with
  | nil => rfl
  | cons e s ih => cases e <;> simp [gets, ih]

@[simp] theorem cacheReads_append (s t : List Event) :
    cacheReads (s ++ t) = cacheReads s ++ cacheReads t := by
  induction s with
  | nil => rfl
  | cons e s ih => cases e <;> simp [cacheReads, ih]

/-! ## The phases of `Run` -/

theorem printConfig_res (cfg : Config) : (printConfig cfg).res = .ok () := by
  unfold printConfig
  split <;> rfl

theorem printConfig_quiet (cfg : Config) :
    updates (printConfig cfg).trace = [] ∧ writes (printConfig cfg).trace = []
      ∧ gets (printConfig cfg).trace = [] ∧ cacheReads (printConfig cfg).trace = [] := by
  unfold printConfig
  split <;> simp [updates, writes, gets, cacheReads, bind, Prog.bind, Println, Print, emit, pure]

theorem loadCache_res (cfg : Config) (w : World) :
    (∃ oldIp, (loadCache cfg w).res = .ok oldIp) ∨ (loadCache cfg w).res = .halt (.exit 1) := by
  unfold loadCache
  by_cases hc : cfg.cacheFile = ""
  · simp [hc, pure]
  · by_cases hn : w.isNotExist cfg.cacheFile = true
    · cases hv : cfg.verbose <;> simp [hc, hn, hv, bind, Prog.bind, emit, pure, Println]
    · cases hr : w.readFile cfg.cacheFile <;> cases hv : cfg.verbose <;>
        simp [hc, hn, hv, bind, Prog.bind, emit, pure, Println, fatal, Exit]

theorem loadCache_quiet (cfg : Config) (w : World) :
    updates (loadCache cfg w).trace = [] ∧ writes (loadCache cfg w).trace = []
      ∧ gets (loadCache cfg w).trace = [] := by
  unfold loadCache
  by_cases hc : cfg.cacheFile = ""
  · simp [hc, pure, updates, writes, gets]
  · by_cases hn : w.isNotExist cfg.cacheFile = true
    · cases hv : cfg.verbose <;>
        simp [hc, hn, hv, bind, Prog.bind, emit, pure, Println, updates, writes, gets]
    · cases hr : w.readFile cfg.cacheFile <;> cases hv : cfg.verbose <;>
        simp [hc, hn, hv, bind, Prog.bind, emit, pure, Println, fatal, Exit, updates, writes, gets]

theorem getIp_of_ok (w : World) (i : Nat) (d body : String)
    (h : w.httpGet i d = .response 200 (.ok body)) :
    getIp w i d = ⟨[.httpGet d], .ok (.ok (TrimSpace body))⟩ := by
  simp [getIp, h, bind, Prog.bind, emit, pure]

theorem getIp_of_fail (w : World) (i : Nat) (d : String)
    (h : (w.httpGet i d).succeeds = false) :
    ∃ err, getIp w i d = ⟨[.httpGet d], .ok (.error err)⟩ := by
  unfold getIp
  cases hr : w.httpGet i d with
  | transportError err =>
    exact ⟨"Failed to make request to get IP: " ++ err, by simp [bind, Prog.bind, emit, pure]⟩
  | response statusCode body =>
    by_cases hs : statusCode = 200
    · cases body with
      | error err =>
        exact ⟨"Failed to read response body: " ++ err, by simp [hs, bind, Prog.bind, emit, pure]⟩
      | ok b => simp [hr, hs, GetResult.succeeds] at h
    · exact ⟨"Non 200 status code returned when attempting to resolve public IP: "
        ++ toString statusCode, by simp [hs, bind, Prog.bind, emit, pure]⟩

theorem succeeds_iff (r : GetResult) :
    r.succeeds = true ↔ ∃ body, r = .response 200 (.ok body) := by
  cases r with
  | transportError err => simp [GetResult.succeeds]
  | response statusCode body =>
    cases body with
    | error err => simp [GetResult.succeeds]
    | ok b => simp [GetResult.succeeds]

theorem resolve_cons_ok (v : Bool) (w : World) (i : Nat) (d : String) (rest : List String)
    (body : String) (h : w.httpGet i d = .response 200 (.ok body)) :
    (resolve v w i (d :: rest)).res = .ok (TrimSpace body)
      ∧ gets (resolve v w i (d :: rest)).trace = [d]
      ∧ updates (resolve v w i (d :: rest)).trace = []
      ∧ writes (resolve v w i (d :: rest)).trace = [] := by
  cases v <;>
    simp [resolve, getIp_of_ok w i d body h, bind, Prog.bind, pure, Println, emit, gets, updates,
      writes]

theorem resolve_cons_fail (v : Bool) (w : World) (i : Nat) (d : String) (rest : List String)
    (h : (w.httpGet i d).succeeds = false) :
    ∃ err, resolve v w i (d :: rest)
      = ⟨[.httpGet d, .print (err ++ "\n")] ++ (resolve v w (i + 1) rest).trace,
          (resolve v w (i + 1) rest).res⟩ := by
  obtain ⟨err, he⟩ := getIp_of_fail w i d h
  refine ⟨err, ?_⟩
  cases hr : (resolve v w (i + 1) rest).res <;>
    simp [resolve, he, bind, Prog.bind, pure, Println, emit, hr]

/-! ## Trimming -/

theorem dropWhile_eq_self_of_head (p : Char → Bool) (l : List Char)
    (h : ∀ c, l.head? = some c → p c = false) : l.dropWhile p = l := by
  cases l with
  | nil => rfl
  | cons a t => simp [List.dropWhile, h a rfl]

theorem head_dropWhile_false (p : Char → Bool) (l : List Char) (c : Char)
    (h : (l.dropWhile p).head? = some c) : p c = false := by
  induction l with
  | nil => simp at h
  | cons a t ih =>
    by_cases ha : p a = true
    · simp [List.dropWhile, ha] at h
      exact ih h
    · simp [List.dropWhile, ha] at h
      subst h
      simpa using ha

theorem head_rdrop (p : Char → Bool) (l : List Char) (c : Char)
    (h : ((l.reverse.dropWhile p).reverse).head? = some c) : l.head? = some c := by
  have hp : (l.reverse.dropWhile p).reverse <+: l := by
    have hs : l.reverse.dropWhile p <:+ l.reverse := List.dropWhile_suffix p
    simpa using List.reverse_prefix.mpr hs
  obtain ⟨t, ht⟩ := hp
  rw [← ht]
  cases hm : (l.reverse.dropWhile p).reverse with
  | nil => simp [hm] at h
  | cons a m => simp [hm] at h; simp [h]

/-- Trimming by a smaller set after trimming by a larger one changes nothing. -/
theorem trimFunc_trimFunc (p q : Char → Bool) (hq : ∀ c, q c = true → p c = true)
    (l : List Char) : trimFunc q (trimFunc p l) = trimFunc p l := by
  have hq2 : ∀ c, p c = false → q c = false := by
    intro c hc
    cases hqc : q c with
    | false => rfl
    | true => rw [hq c hqc] at hc; cases hc
  unfold trimFunc
  have h1 : ((l.dropWhile p).reverse.dropWhile p).reverse.dropWhile q
      = ((l.dropWhile p).reverse.dropWhile p).reverse := by
    apply dropWhile_eq_self_of_head
    intro c hc
    exact hq2 c (head_dropWhile_false p l c (head_rdrop p _ c hc))
  rw [h1, List.reverse_reverse]
  have h2 : ((l.dropWhile p).reverse.dropWhile p).dropWhile q
      = (l.dropWhile p).reverse.dropWhile p := by
    apply dropWhile_eq_self_of_head
    intro c hc
    exact hq2 c (head_dropWhile_false p _ c hc)
  rw [h2]

theorem trim_newline_trimSpace (s : String) : Trim (TrimSpace s) "\n" = TrimSpace s := by
  unfold Trim TrimSpace
  congr 1
  apply trimFunc_trimFunc
  intro c hc
  have : c = '\n' := by simpa using hc
  subst this
  decide

theorem trim_newline_empty : Trim "" "\n" = "" := by decide

/-! ## The resolver scan -/

theorem getIp_congr (w1 w2 : World) (h : w2.httpGet = w1.httpGet) (i : Nat) (d : String) :
    getIp w2 i d = getIp w1 i d := by
  simp [getIp, h]

theorem resolve_congr (v : Bool) (w1 w2 : World) (h : w2.httpGet = w1.httpGet) :
    ∀ (l : List String) (i : Nat), resolve v w2 i l = resolve v w1 i l := by
  intro l
  induction l with
  | nil => intro i; rfl
  | cons d rest ih =>
    intro i
    simp only [resolve, getIp_congr w1 w2 h, ih]

/-- The scan never stops the process, sends no update and writes no file, and
its value is stable under trimming newlines. -/
theorem resolve_total (v : Bool) (w : World) :
    ∀ (l : List String) (i : Nat), ∃ ip, (resolve v w i l).res = .ok ip
      ∧ updates (resolve v w i l).trace = [] ∧ writes (resolve v w i l).trace = []
      ∧ cacheReads (resolve v w i l).trace = [] ∧ Trim ip "\n" = ip := by
  intro l
  induction l with
  | nil =>
    intro i
    exact ⟨"", by simp [resolve, pure, updates, writes, cacheReads, trim_newline_empty]⟩
  | cons d rest ih =>
    intro i
    cases hs : (w.httpGet i d).succeeds with
    | true =>
      obtain ⟨body, hb⟩ := (succeeds_iff _).mp hs
      refine ⟨TrimSpace body, ?_⟩
      cases v <;>
        simp [resolve, getIp_of_ok w i d body hb, bind, Prog.bind, pure, Println, emit, updates,
          writes, cacheReads, trim_newline_trimSpace]
    | false =>
      obtain ⟨err, he⟩ := resolve_cons_fail v w i d rest hs
      obtain ⟨ip, h1, h2, h3, h4, h5⟩ := ih (i + 1)
      exact ⟨ip, by simp [he, h1, h2, h3, h4, h5, updates, writes, cacheReads]⟩

theorem resolve_all_fail (v : Bool) (w : World) :
    ∀ (l : List String) (i : Nat),
      (∀ k d, l[k]? = some d → (w.httpGet (i + k) d).succeeds = false) →
      (resolve v w i l).res = .ok "" ∧ gets (resolve v w i l).trace = l := by
  intro l
  induction l with
  | nil => intro i _; simp [resolve, pure, gets]
  | cons d rest ih =>
    intro i h
    have h0 : (w.httpGet i d).succeeds = false := by simpa using h 0 d (by simp)
    obtain ⟨err, he⟩ := resolve_cons_fail v w i d rest h0
    have hrest := ih (i + 1) (fun k d' hk => by
      have := h (k + 1) d' (by simpa using hk)
      simpa [Nat.add_assoc, Nat.add_comm 1 k] using this)
    simp [he, hrest.1, hrest.2, gets]

theorem resolve_first (v : Bool) (w : World) :
    ∀ (l : List String) (i : Nat),
      (∃ k d, l[k]? = some d ∧ (w.httpGet (i + k) d).succeeds = true) →
      ∃ k d body, l[k]? = some d ∧ w.httpGet (i + k) d = .response 200 (.ok body)
        ∧ (∀ j e, j < k → l[j]? = some e → (w.httpGet (i + j) e).succeeds = false)
        ∧ gets (resolve v w i l).trace = l.take (k + 1)
        ∧ (resolve v w i l).res = .ok (TrimSpace body) := by
  intro l
  induction l with
  | nil => intro i ⟨k, d, hk, _⟩; simp at hk
  | cons d rest ih =>
    intro i hex
    cases hs : (w.httpGet i d).succeeds with
    | true =>
      obtain ⟨body, hb⟩ := (succeeds_iff _).mp hs
      obtain ⟨h1, h2, _, _⟩ := resolve_cons_ok v w i d rest body hb
      exact ⟨0, d, body, by simp, by simpa using hb, by simp, by simpa using h2, h1⟩
    | false =>
      obtain ⟨err, he⟩ := resolve_cons_fail v w i d rest hs
      have hex2 : ∃ k e, rest[k]? = some e ∧ (w.httpGet (i + 1 + k) e).succeeds = true := by
        obtain ⟨k, e, hk, hsucc⟩ := hex
        cases k with
        | zero =>
          simp at hk
          subst hk
          simp [hs] at hsucc
        | succ n =>
          refine ⟨n, e, by simpa using hk, ?_⟩
          have : i + 1 + n = i + (n + 1) := by omega
          rw [this]; exact hsucc
      obtain ⟨k, e, body, hk, hb, hbefore, hg, hr⟩ := ih (i + 1) hex2
      refine ⟨k + 1, e, body, by simpa using hk, ?_, ?_, ?_, ?_⟩
      · have : i + (k + 1) = i + 1 + k := by omega
        rw [this]; exact hb
      · intro j e2 hj hje
        cases j with
        | zero =>
          simp at hje
          subst hje
          simpa using hs
        | succ n =>
          have := hbefore n e2 (by omega) (by simpa using hje)
          have h3 : i + (n + 1) = i + 1 + n := by omega
          rw [h3]; exact this
      · simp [he, hg, gets]
      · simp [he, hr]

/-! ## The update call -/

theorem updateIp_trace (w : World) (ip host domain token : String) :
    (updateIp w ip host domain token).trace = [.clientDo (updateRequest host domain token)] := by
  unfold updateIp
  cases hr : w.clientDo (updateRequest host domain token) with
  | transportError e => simp [bind, Prog.bind, emit, pure, hr]
  | response sc st doc =>
    by_cases hs : sc = 200
    · cases doc with
      | none => simp [bind, Prog.bind, emit, pure, hr, hs, goPanic]
      | some doc =>
        cases hf : doc.FindOne "//ErrCount" with
        | none => simp [bind, Prog.bind, emit, pure, hr, hs, goPanic, hf]
        | some n =>
          cases ha : Atoi n.InnerText with
          | none => simp [bind, Prog.bind, emit, pure, hr, hs, goPanic, hf, ha]
          | some k =>
            by_cases hk : k > 0
            · cases he : doc.FindOne "//Err1" <;>
                simp [bind, Prog.bind, emit, pure, hr, hs, goPanic, hf, ha, hk, he]
            · simp [bind, Prog.bind, emit, pure, hr, hs, goPanic, hf, ha, hk]
    · simp [bind, Prog.bind, emit, pure, hr, hs]

/-! ## The paths of `Run` -/

theorem run_cache_halt (cfg : Config) (w : World)
    (h1 : cfg.host ≠ "") (h2 : cfg.domain ≠ "") (h3 : cfg.token ≠ "") (x : Halt)
    (hc : (loadCache cfg w).res = .halt x) :
    Run cfg w = ⟨(printConfig cfg).trace ++ (loadCache cfg w).trace, .halt x⟩ := by
  simp [Run, h1, h2, h3, bind, Prog.bind, pure, printConfig_res, hc]

theorem run_unresolved (cfg : Config) (w : World)
    (h1 : cfg.host ≠ "") (h2 : cfg.domain ≠ "") (h3 : cfg.token ≠ "") (oldIp : String)
    (hc : (loadCache cfg w).res = .ok oldIp)
    (hr : (resolve cfg.verbose w 0 cfg.ipResolvers).res = .ok "") :
    Run cfg w = ⟨(printConfig cfg).trace ++ ((loadCache cfg w).trace
        ++ ((resolve cfg.verbose w 0 cfg.ipResolvers).trace
        ++ [.print "Failed to resolve IP using any provided ip resolvers!\n"])),
      .halt (.exit 1)⟩ := by
  simp [Run, h1, h2, h3, bind, Prog.bind, pure, printConfig_res, hc, hr, fatal_eq]

theorem run_same (cfg : Config) (w : World)
    (h1 : cfg.host ≠ "") (h2 : cfg.domain ≠ "") (h3 : cfg.token ≠ "") (ip : String)
    (hc : (loadCache cfg w).res = .ok ip)
    (hr : (resolve cfg.verbose w 0 cfg.ipResolvers).res = .ok ip) (hne : ip ≠ "") :
    Run cfg w = ⟨(printConfig cfg).trace ++ ((loadCache cfg w).trace
        ++ ((resolve cfg.verbose w 0 cfg.ipResolvers).trace
        ++ [.print "IPs are the same...\n"])),
      .halt (.exit 0)⟩ := by
  simp [Run, h1, h2, h3, bind, Prog.bind, pure, printConfig_res, hc, hr, hne, Println, emit, Exit]

/-- The part of the trace before the update call on the path that reaches it. -/
theorem run_update (cfg : Config) (w : World)
    (h1 : cfg.host ≠ "") (h2 : cfg.domain ≠ "") (h3 : cfg.token ≠ "") (oldIp ip : String)
    (hc : (loadCache cfg w).res = .ok oldIp)
    (hr : (resolve cfg.verbose w 0 cfg.ipResolvers).res = .ok ip) (hne : ip ≠ "")
    (hd : oldIp ≠ ip) :
    (∀ x, (updateIp w ip cfg.host cfg.domain cfg.token).res = .halt x →
      Run cfg w = ⟨(printConfig cfg).trace ++ ((loadCache cfg w).trace
        ++ ((resolve cfg.verbose w 0 cfg.ipResolvers).trace
        ++ [.clientDo (updateRequest cfg.host cfg.domain cfg.token)])), .halt x⟩)
    ∧ (∀ msg, (updateIp w ip cfg.host cfg.domain cfg.token).res = .ok (some msg) →
      Run cfg w = ⟨(printConfig cfg).trace ++ ((loadCache cfg w).trace
        ++ ((resolve cfg.verbose w 0 cfg.ipResolvers).trace
        ++ [.clientDo (updateRequest cfg.host cfg.domain cfg.token), .print (msg ++ "\n")])),
        .halt (.exit 1)⟩)
    ∧ ((updateIp w ip cfg.host cfg.domain cfg.token).res = .ok none → cfg.cacheFile = "" →
      Run cfg w = ⟨(printConfig cfg).trace ++ ((loadCache cfg w).trace
        ++ ((resolve cfg.verbose w 0 cfg.ipResolvers).trace
        ++ [.clientDo (updateRequest cfg.host cfg.domain cfg.token), .print "Success!\n"])),
        .ok ()⟩)
    ∧ ((updateIp w ip cfg.host cfg.domain cfg.token).res = .ok none → cfg.cacheFile ≠ "" →
      w.writeFile cfg.cacheFile ip 0o644 = none →
      Run cfg w = ⟨(printConfig cfg).trace ++ ((loadCache cfg w).trace
        ++ ((resolve cfg.verbose w 0 cfg.ipResolvers).trace
        ++ [.clientDo (updateRequest cfg.host cfg.domain cfg.token),
            .writeFile cfg.cacheFile ip 0o644, .print "Success!\n"])),
        .ok ()⟩)
    ∧ (∀ werr, (updateIp w ip cfg.host cfg.domain cfg.token).res = .ok none →
      cfg.cacheFile ≠ "" → w.writeFile cfg.cacheFile ip 0o644 = some werr →
      Run cfg w = ⟨(printConfig cfg).trace ++ ((loadCache cfg w).trace
        ++ ((resolve cfg.verbose w 0 cfg.ipResolvers).trace
        ++ [.clientDo (updateRequest cfg.host cfg.domain cfg.token),
            .writeFile cfg.cacheFile ip 0o644,
            .print ("Failed to write to cache file: " ++ werr ++ "\n")])),
        .halt (.exit 1)⟩) := by
  have ht := updateIp_trace w ip cfg.host cfg.domain cfg.token
  refine ⟨?_, ?_, ?_, ?_, ?_⟩
  · intro x hu
    simp [Run, h1, h2, h3, bind, Prog.bind, pure, printConfig_res, hc, hr, hne, hd, hu, ht]
  · intro msg hu
    simp [Run, h1, h2, h3, bind, Prog.bind, pure, printConfig_res, hc, hr, hne, hd, hu, ht,
      fatal_eq]
  · intro hu hcf
    simp [Run, h1, h2, h3, bind, Prog.bind, pure, printConfig_res, hc, hr, hne, hd, hu, ht,
      hcf, Println, emit]
  · intro hu hcf hw
    simp [Run, h1, h2, h3, bind, Prog.bind, pure, printConfig_res, hc, hr, hne, hd, hu, ht,
      hcf, hw, Println, emit]
  · intro werr hu hcf hw
    simp [Run, h1, h2, h3, bind, Prog.bind, pure, printConfig_res, hc, hr, hne, hd, hu, ht,
      hcf, hw, Println, emit, fatal_eq]

theorem updateIp_res (w : World) (ip host domain token : String) :
    (updateIp w ip host domain token).res = .halt .panicked
      ∨ ∃ r, (updateIp w ip host domain token).res = .ok r := by
  unfold updateIp
  cases hr : w.clientDo (updateRequest host domain token) with
  | transportError e => simp [bind, Prog.bind, emit, pure, hr]
  | response sc st doc =>
    by_cases hs : sc = 200
    · cases doc with
      | none => simp [bind, Prog.bind, emit, pure, hr, hs, goPanic]
      | some doc =>
        cases hf : doc.FindOne "//ErrCount" with
        | none => simp [bind, Prog.bind, emit, pure, hr, hs, goPanic, hf]
        | some n =>
          cases ha : Atoi n.InnerText with
          | none => simp [bind, Prog.bind, emit, pure, hr, hs, goPanic, hf, ha]
          | some k =>
            by_cases hk : k > 0
            · cases he : doc.FindOne "//Err1" <;>
                simp [bind, Prog.bind, emit, pure, hr, hs, goPanic, hf, ha, hk, he]
            · simp [bind, Prog.bind, emit, pure, hr, hs, goPanic, hf, ha, hk]
    · simp [bind, Prog.bind, emit, pure, hr, hs]

theorem updateIp_provider_error (w : World) (ip host domain token status : String)
    (doc : Document) (n e1 : Node) (k : Int)
    (hr : w.clientDo (updateRequest host domain token) = .response 200 status (some doc))
    (hf : doc.FindOne "//ErrCount" = some n) (ha : Atoi n.InnerText = some k) (hk : k > 0)
    (he : doc.FindOne "//Err1" = some e1) :
    (updateIp w ip host domain token).res
      = .ok (some ("Namecheap api returned error(s): " ++ e1.InnerText)) := by
  simp [updateIp, bind, Prog.bind, emit, pure, hr, hf, ha, hk, he]

theorem updateIp_no_error (w : World) (ip host domain token status : String)
    (doc : Document) (n : Node)
    (hr : w.clientDo (updateRequest host domain token) = .response 200 status (some doc))
    (hf : doc.FindOne "//ErrCount" = some n) (ha : Atoi n.InnerText = some 0) :
    (updateIp w ip host domain token).res = .ok none := by
  simp [updateIp, bind, Prog.bind, emit, pure, hr, hf, ha]

theorem loadCache_congr (cfg : Config) (w1 w2 : World)
    (hn : w2.isNotExist cfg.cacheFile = w1.isNotExist cfg.cacheFile)
    (hr : w2.readFile cfg.cacheFile = w1.readFile cfg.cacheFile) :
    loadCache cfg w2 = loadCache cfg w1 := by
  simp [loadCache, hn, hr]

theorem loadCache_of_absent (cfg : Config) (w : World)
    (hn : w.isNotExist cfg.cacheFile = true) : (loadCache cfg w).res = .ok "" := by
  unfold loadCache
  by_cases hc : cfg.cacheFile = ""
  · simp [hc, pure]
  · cases hv : cfg.verbose <;> simp [hc, hn, hv, bind, Prog.bind, emit, pure, Println]

theorem loadCache_of_file (cfg : Config) (w : World) (bytes : String)
    (hc : cfg.cacheFile ≠ "") (hn : w.isNotExist cfg.cacheFile = false)
    (hr : w.readFile cfg.cacheFile = .ok bytes) :
    (loadCache cfg w).res = .ok (Trim bytes "\n") := by
  unfold loadCache
  cases hv : cfg.verbose <;> simp [hc, hn, hr, hv, bind, Prog.bind, emit, pure, Println]

/-- A run that sends an update request has a valid configuration, a cached
address that was read, and a non-empty resolved address different from it. -/
theorem run_reaches_update (cfg : Config) (w : World)
    (h : updates (Run cfg w).trace ≠ []) :
    cfg.host ≠ "" ∧ cfg.domain ≠ "" ∧ cfg.token ≠ "" ∧
      ∃ oldIp ip, (loadCache cfg w).res = .ok oldIp
        ∧ (resolve cfg.verbose w 0 cfg.ipResolvers).res = .ok ip ∧ ip ≠ "" ∧ oldIp ≠ ip := by
  by_cases h1 : cfg.host = ""
  · exact absurd (by simp [Run, h1, bind, Prog.bind, fatal_eq, updates]) h
  by_cases h2 : cfg.domain = ""
  · exact absurd (by simp [Run, h1, h2, bind, Prog.bind, fatal_eq, pure, updates]) h
  by_cases h3 : cfg.token = ""
  · exact absurd (by simp [Run, h1, h2, h3, bind, Prog.bind, fatal_eq, pure, updates]) h
  refine ⟨h1, h2, h3, ?_⟩
  obtain ⟨hp1, hp2, -, -⟩ := printConfig_quiet cfg
  obtain ⟨hl1, hl2, -⟩ := loadCache_quiet cfg w
  obtain ⟨ip, hr, hr1, hr2, -, -⟩ := resolve_total cfg.verbose w cfg.ipResolvers 0
  rcases loadCache_res cfg w with ⟨oldIp, hc⟩ | hc
  · refine ⟨oldIp, ip, hc, hr, ?_, ?_⟩
    · intro he
      subst he
      rw [run_unresolved cfg w h1 h2 h3 oldIp hc hr] at h
      simp [hp1, hl1, hr1, updates] at h
    · intro he
      subst he
      by_cases hne : oldIp = ""
      · subst hne
        rw [run_unresolved cfg w h1 h2 h3 "" hc hr] at h
        simp [hp1, hl1, hr1, updates] at h
      · rw [run_same cfg w h1 h2 h3 oldIp hc hr hne] at h
        simp [hp1, hl1, hr1, updates] at h
  · rw [run_cache_halt cfg w h1 h2 h3 _ hc] at h
    simp [hp1, hl1] at h

theorem resolve_stops_at (v : Bool) (w : World) (d body : String) (post : List String) :
    ∀ (pre : List String) (i : Nat),
      (∀ k e, pre[k]? = some e → (w.httpGet (i + k) e).succeeds = false) →
      w.httpGet (i + pre.length) d = .response 200 (.ok body) →
      (resolve v w i (pre ++ d :: post)).res = .ok (TrimSpace body)
        ∧ gets (resolve v w i (pre ++ d :: post)).trace = pre ++ [d] := by
  intro pre
  induction pre with
  | nil =>
    intro i _ hd
    obtain ⟨r1, r2, -, -⟩ := resolve_cons_ok v w i d post body (by simpa using hd)
    exact ⟨by simpa using r1, by simpa using r2⟩
  | cons p rest ih =>
    intro i hpre hd
    have h0 : (w.httpGet i p).succeeds = false := by simpa using hpre 0 p (by simp)
    obtain ⟨err, he⟩ := resolve_cons_fail v w i p (rest ++ d :: post) h0
    have hrest := ih (i + 1) (fun k e hk => by
      have := hpre (k + 1) e (by simpa using hk)
      have h3 : i + 1 + k = i + (k + 1) := by omega
      rw [h3]; exact this) (by
      have h3 : i + 1 + rest.length = i + (p :: rest).length := by simp; omega
      rw [h3]; exact hd)
    rw [List.cons_append, he]
    simp [hrest.1, hrest.2, gets]

theorem run_updates_eq (cfg : Config) (w : World) (h : updates (Run cfg w).trace ≠ []) :
    updates (Run cfg w).trace = [updateRequest cfg.host cfg.domain cfg.token] := by
  obtain ⟨h1, h2, h3, oldIp, ip, hc, hr, hne, hd⟩ := run_reaches_update cfg w h
  obtain ⟨hp1, -, -, -⟩ := printConfig_quiet cfg
  obtain ⟨hl1, -, -⟩ := loadCache_quiet cfg w
  obtain ⟨ip2, hr2, hr1, -, -, -⟩ := resolve_total cfg.verbose w cfg.ipResolvers 0
  obtain ⟨u1, u2, u3, u4, u5⟩ := run_update cfg w h1 h2 h3 oldIp ip hc hr hne hd
  rcases updateIp_res w ip cfg.host cfg.domain cfg.token with hu | ⟨r, hu⟩
  · rw [u1 _ hu]; simp [hp1, hl1, hr1, updates]
  · cases r with
    | some msg => rw [u2 msg hu]; simp [hp1, hl1, hr1, updates]
    | none =>
      by_cases hcf : cfg.cacheFile = ""
      · rw [u3 hu hcf]; simp [hp1, hl1, hr1, updates]
      · cases hw : w.writeFile cfg.cacheFile ip 0o644 with
        | none => rw [u4 hu hcf hw]; simp [hp1, hl1, hr1, updates]
        | some werr => rw [u5 werr hu hcf hw]; simp [hp1, hl1, hr1, updates]

/-! ## The claims -/

/-- Claim C1, as stated, fails: with an empty cache file and a resolver that
answers 200 with a blank body, the cached address and the resolved address are
both the empty string, yet the run prints no "IPs are the same..." message and
terminates with status 1. -/
theorem equal_empty_addresses_exit_one :
    (loadCache sampleConfig blankWorld).res = .ok ""
      ∧ (resolve sampleConfig.verbose blankWorld 0 sampleConfig.ipResolvers).res = .ok ""
      ∧ Event.print "IPs are the same...\n" ∉ (Run sampleConfig blankWorld).trace
      ∧ exitStatus (Run sampleConfig blankWorld).res = 1 := by
  decide

/-- Claim C1, amended: for a configuration with non-empty host, domain and
token, when the cached address read by the run equals the resolved address and
this address is not empty, the run prints "IPs are the same..." last, terminates
with status 0, sends no update request and writes no file. -/
theorem same_address_exits_zero (cfg : Config) (w : World) (ip : String)
    (h1 : cfg.host ≠ "") (h2 : cfg.domain ≠ "") (h3 : cfg.token ≠ "")
    (hc : (loadCache cfg w).res = .ok ip)
    (hr : (resolve cfg.verbose w 0 cfg.ipResolvers).res = .ok ip) (hne : ip ≠ "") :
    (Run cfg w).res = .halt (.exit 0) ∧ exitStatus (Run cfg w).res = 0
      ∧ (Run cfg w).trace.getLast? = some (.print "IPs are the same...\n")
      ∧ updates (Run cfg w).trace = [] ∧ writes (Run cfg w).trace = [] := by
  obtain ⟨hp1, hp2, -, -⟩ := printConfig_quiet cfg
  obtain ⟨hl1, hl2, -⟩ := loadCache_quiet cfg w
  obtain ⟨ip2, -, hr1, hr2, -, -⟩ := resolve_total cfg.verbose w cfg.ipResolvers 0
  rw [run_same cfg w h1 h2 h3 ip hc hr hne]
  simp [exitStatus, hp1, hp2, hl1, hl2, hr1, hr2, updates, writes]

/-- Claim C1, amended, on a cache file holding `5.6.7.8` and a resolver
answering `5.6.7.8`. -/
theorem same_address_exits_zero_witness :
    (Run sampleConfig cachedWorld).res = .halt (.exit 0)
      ∧ exitStatus (Run sampleConfig cachedWorld).res = 0
      ∧ (Run sampleConfig cachedWorld).trace.getLast? = some (.print "IPs are the same...\n")
      ∧ updates (Run sampleConfig cachedWorld).trace = []
      ∧ writes (Run sampleConfig cachedWorld).trace = [] :=
  same_address_exits_zero sampleConfig cachedWorld "5.6.7.8" (by decide) (by decide) (by decide)
    (by decide) (by decide) (by decide)

/-- Claim C4: when host, domain or token is the empty string, the whole trace of
the run is one printed message and the run terminates with status 1; no cache
read, no resolver GET, no update request and no write is performed. -/
theorem missing_field_exits_before_any_call (cfg : Config) (w : World)
    (h : cfg.host = "" ∨ cfg.domain = "" ∨ cfg.token = "") :
    (∃ msg, (Run cfg w).trace = [.print msg]) ∧ (Run cfg w).res = .halt (.exit 1)
      ∧ exitStatus (Run cfg w).res = 1
      ∧ cacheReads (Run cfg w).trace = [] ∧ gets (Run cfg w).trace = []
      ∧ updates (Run cfg w).trace = [] ∧ writes (Run cfg w).trace = [] := by
  by_cases h1 : cfg.host = ""
  · have hrun : Run cfg w
        = ⟨[.print "Namecheap host must be specified! Remember to specify it with -n\n"],
          .halt (.exit 1)⟩ := by
      simp [Run, h1, bind, Prog.bind, fatal_eq]
    rw [hrun]
    exact ⟨⟨_, rfl⟩, rfl, rfl, rfl, rfl, rfl, rfl⟩
  · by_cases h2 : cfg.domain = ""
    · have hrun : Run cfg w
          = ⟨[.print "Namecheap domain must be specified! Remember to specify it with -d\n"],
            .halt (.exit 1)⟩ := by
        simp [Run, h1, h2, bind, Prog.bind, fatal_eq, pure]
      rw [hrun]
      exact ⟨⟨_, rfl⟩, rfl, rfl, rfl, rfl, rfl, rfl⟩
    · have h3 : cfg.token = "" := by tauto
      have hrun : Run cfg w
          = ⟨[.print "Namecheap token must be specified! Remember to specify it with -t\n"],
            .halt (.exit 1)⟩ := by
        simp [Run, h1, h2, h3, bind, Prog.bind, fatal_eq, pure]
      rw [hrun]
      exact ⟨⟨_, rfl⟩, rfl, rfl, rfl, rfl, rfl, rfl⟩

/-- Claim C4 on a configuration whose token is empty. -/
theorem missing_field_exits_before_any_call_witness :
    ({ sampleConfig with token := "" } : Config).token = ""
      ∧ (Run { sampleConfig with token := "" } freshWorld).res = .halt (.exit 1) :=
  ⟨rfl, (missing_field_exits_before_any_call { sampleConfig with token := "" } freshWorld
    (Or.inr (Or.inr rfl))).2.1⟩

/-- Claim C2, as stated, fails: with a valid configuration, no cache file, the
resolved address `5.6.7.8` and a 200 response with `ErrCount` 0, the run
attempts the write of `5.6.7.8`, but when that write fails it terminates with
status 1. -/
theorem failed_write_exits_one :
    readOnlyWorld.isNotExist sampleConfig.cacheFile = true
      ∧ (resolve sampleConfig.verbose readOnlyWorld 0 sampleConfig.ipResolvers).res
          = .ok "5.6.7.8"
      ∧ (updateIp readOnlyWorld "5.6.7.8" sampleConfig.host sampleConfig.domain
          sampleConfig.token).res = .ok none
      ∧ writes (Run sampleConfig readOnlyWorld).trace = [("ip-cache", "5.6.7.8", 0o644)]
      ∧ exitStatus (Run sampleConfig readOnlyWorld).res = 1 := by
  decide

/-- Claim C2, amended: for a valid configuration with a cache file path, no
existing cache file and a non-empty resolved address `a`, the run sends exactly
one update request, with query parameters exactly host, domain and password set
to the configured host, domain and token; when the response is status 200 with
`ErrCount` 0 the run performs exactly one write, of exactly `a`, to the cache
file, and terminates with status 0 if that write succeeds and with status 1 if
it fails. -/
theorem fresh_run_updates_then_writes (cfg : Config) (w : World) (a : String)
    (h1 : cfg.host ≠ "") (h2 : cfg.domain ≠ "") (h3 : cfg.token ≠ "")
    (hcf : cfg.cacheFile ≠ "") (hn : w.isNotExist cfg.cacheFile = true)
    (hr : (resolve cfg.verbose w 0 cfg.ipResolvers).res = .ok a) (hne : a ≠ "") :
    (∃ req, updates (Run cfg w).trace = [req]
        ∧ req.query = [("host", [cfg.host]), ("domain", [cfg.domain]), ("password", [cfg.token])])
      ∧ ∀ status doc n,
          w.clientDo (updateRequest cfg.host cfg.domain cfg.token)
            = .response 200 status (some doc) →
          doc.FindOne "//ErrCount" = some n → Atoi n.InnerText = some 0 →
          writes (Run cfg w).trace = [(cfg.cacheFile, a, 0o644)]
            ∧ (w.writeFile cfg.cacheFile a 0o644 = none →
                (Run cfg w).res = .ok () ∧ exitStatus (Run cfg w).res = 0)
            ∧ (w.writeFile cfg.cacheFile a 0o644 ≠ none →
                exitStatus (Run cfg w).res = 1) := by
  obtain ⟨hp1, hp2, -, -⟩ := printConfig_quiet cfg
  obtain ⟨hl1, hl2, -⟩ := loadCache_quiet cfg w
  obtain ⟨ip2, -, hr1, hr2, -, -⟩ := resolve_total cfg.verbose w cfg.ipResolvers 0
  have hc := loadCache_of_absent cfg w hn
  have hd : ("" : String) ≠ a := fun h => hne h.symm
  obtain ⟨u1, u2, u3, u4, u5⟩ := run_update cfg w h1 h2 h3 "" a hc hr hne hd
  constructor
  · refine ⟨updateRequest cfg.host cfg.domain cfg.token, ?_, rfl⟩
    apply run_updates_eq
    rcases updateIp_res w a cfg.host cfg.domain cfg.token with hu | ⟨r, hu⟩
    · rw [u1 _ hu]; simp [updates]
    · cases r with
      | some msg => rw [u2 msg hu]; simp [updates]
      | none =>
        cases hw : w.writeFile cfg.cacheFile a 0o644 with
        | none => rw [u4 hu hcf hw]; simp [updates]
        | some werr => rw [u5 werr hu hcf hw]; simp [updates]
  · intro status doc n hresp hf ha
    have hu := updateIp_no_error w a cfg.host cfg.domain cfg.token status doc n hresp hf ha
    cases hw : w.writeFile cfg.cacheFile a 0o644 with
    | none =>
      rw [u4 hu hcf hw]
      simp [hp2, hl2, hr2, writes, exitStatus]
    | some werr =>
      rw [u5 werr hu hcf hw]
      simp [hp2, hl2, hr2, writes, exitStatus]

/-- Claim C2, amended, on no cache file, the resolved address `5.6.7.8` and the
response `<Response><ErrCount>0</ErrCount></Response>`. -/
theorem fresh_run_updates_then_writes_witness :
    updates (Run sampleConfig freshWorld).trace
        = [⟨"GET", "https://dynamicdns.park-your-domain.com/update",
            [("host", ["www"]), ("domain", ["example.com"]), ("password", ["secret"])],
            [("Accept", "application/json")]⟩]
      ∧ writes (Run sampleConfig freshWorld).trace = [("ip-cache", "5.6.7.8", 0o644)]
      ∧ (Run sampleConfig freshWorld).res = .ok ()
      ∧ exitStatus (Run sampleConfig freshWorld).res = 0 := by
  have h := fresh_run_updates_then_writes sampleConfig freshWorld "5.6.7.8" (by decide)
    (by decide) (by decide) (by decide) (by decide) (by decide) (by decide)
  have h2 := h.2 "200 OK" okDocument ⟨"0"⟩ rfl (by decide) (by decide)
  exact ⟨by decide, h2.1, (h2.2.1 rfl).1, (h2.2.1 rfl).2⟩

/-- Claim C3: when the run sends its update request and the response has status
200, an `ErrCount` node that converts to an integer greater than 0 and an `Err1`
node with text `t`, then `updateIp` returns the error
"Namecheap api returned error(s): " followed by `t` (which contains `t`), the
run prints that message last and terminates with status 1, and no write to the
cache file is performed. -/
theorem provider_error_is_fatal (cfg : Config) (w : World) (req : Request)
    (status : String) (doc : Document) (n e1 : Node) (k : Int)
    (hsent : req ∈ updates (Run cfg w).trace)
    (hresp : w.clientDo req = .response 200 status (some doc))
    (hf : doc.FindOne "//ErrCount" = some n) (ha : Atoi n.InnerText = some k) (hk : k > 0)
    (he : doc.FindOne "//Err1" = some e1) :
    (∀ ip, (updateIp w ip cfg.host cfg.domain cfg.token).res
        = .ok (some ("Namecheap api returned error(s): " ++ e1.InnerText)))
      ∧ e1.InnerText.data <:+: ("Namecheap api returned error(s): " ++ e1.InnerText).data
      ∧ (Run cfg w).res = .halt (.exit 1) ∧ exitStatus (Run cfg w).res = 1
      ∧ (Run cfg w).trace.getLast?
          = some (.print ("Namecheap api returned error(s): " ++ e1.InnerText ++ "\n"))
      ∧ writes (Run cfg w).trace = [] := by
  have hnonempty : updates (Run cfg w).trace ≠ [] := List.ne_nil_of_mem hsent
  have hreq : req = updateRequest cfg.host cfg.domain cfg.token := by
    rw [run_updates_eq cfg w hnonempty] at hsent
    simpa using hsent
  subst hreq
  obtain ⟨h1, h2, h3, oldIp, ip, hc, hr, hne, hd⟩ := run_reaches_update cfg w hnonempty
  obtain ⟨hp1, hp2, -, -⟩ := printConfig_quiet cfg
  obtain ⟨hl1, hl2, -⟩ := loadCache_quiet cfg w
  obtain ⟨ip2, -, hr1, hr2, -, -⟩ := resolve_total cfg.verbose w cfg.ipResolvers 0
  have hu := fun ip0 =>
    updateIp_provider_error w ip0 cfg.host cfg.domain cfg.token status doc n e1 k hresp hf ha hk he
  obtain ⟨-, u2, -, -, -⟩ := run_update cfg w h1 h2 h3 oldIp ip hc hr hne hd
  refine ⟨hu, ?_, ?_⟩
  · exact ⟨"Namecheap api returned error(s): ".data, [], by simp⟩
  · rw [u2 _ (hu ip)]
    simp [hp2, hl2, hr2, writes, exitStatus]

/-- Claim C3 on the response
`<Response><ErrCount>1</ErrCount><Err1>Invalid token</Err1></Response>`. -/
theorem provider_error_is_fatal_witness :
    (Run sampleConfig rejectingWorld).res = .halt (.exit 1)
      ∧ (Run sampleConfig rejectingWorld).trace.getLast?
          = some (.print "Namecheap api returned error(s): Invalid token\n")
      ∧ writes (Run sampleConfig rejectingWorld).trace = [] := by
  have h := provider_error_is_fatal sampleConfig rejectingWorld
    (updateRequest sampleConfig.host sampleConfig.domain sampleConfig.token) "200 OK"
    errDocument ⟨"1"⟩ ⟨"Invalid token"⟩ 1 (by decide) rfl (by decide) (by decide) (by decide)
    (by decide)
  exact ⟨h.2.2.1, h.2.2.2.2.1, h.2.2.2.2.2⟩

/-- Claim C5: when at least one endpoint of the list succeeds, there is a first
succeeding endpoint, at position `k`: every endpoint before it fails, the GETs
of the scan are the first `k + 1` endpoints in the given order (none after
position `k`), and the scan does not stop the run and yields the body of
endpoint `k` trimmed of surrounding whitespace. -/
theorem scan_yields_first_success (verbose : Bool) (w : World) (endpoints : List String)
    (h : ∃ i d, endpoints[i]? = some d ∧ (w.httpGet i d).succeeds = true) :
    ∃ k d body, endpoints[k]? = some d ∧ w.httpGet k d = .response 200 (.ok body)
      ∧ (∀ j e, j < k → endpoints[j]? = some e → (w.httpGet j e).succeeds = false)
      ∧ gets (resolve verbose w 0 endpoints).trace = endpoints.take (k + 1)
      ∧ (resolve verbose w 0 endpoints).res = .ok (TrimSpace body) := by
  have hex : ∃ k d, endpoints[k]? = some d ∧ (w.httpGet (0 + k) d).succeeds = true := by
    simpa using h
  obtain ⟨k, d, body, hk, hb, hbefore, hg, hr⟩ := resolve_first verbose w endpoints 0 hex
  refine ⟨k, d, body, hk, by simpa using hb, ?_, hg, hr⟩
  intro j e hj hje
  simpa using hbefore j e hj hje

/-- Claim C5 on three endpoints of which the first two answer 500 and the third
answers `9.9.9.9` followed by a newline. -/
theorem scan_yields_first_success_witness :
    ∃ k d body, ["http://a", "http://b", "http://c"][k]? = some d
      ∧ lateWorld.httpGet k d = .response 200 (.ok body)
      ∧ (∀ j e, j < k → ["http://a", "http://b", "http://c"][j]? = some e →
          (lateWorld.httpGet j e).succeeds = false)
      ∧ gets (resolve false lateWorld 0 ["http://a", "http://b", "http://c"]).trace
          = ["http://a", "http://b", "http://c"].take (k + 1)
      ∧ (resolve false lateWorld 0 ["http://a", "http://b", "http://c"]).res
          = .ok (TrimSpace body) :=
  scan_yields_first_success false lateWorld ["http://a", "http://b", "http://c"]
    ⟨2, "http://c", by decide, by decide⟩

/-- Claim C6, evaluated on the code: on a 200 response whose XML has no
`ErrCount` node, and on a 200 response whose body is not XML, `updateIp` returns
no error value: the Go runtime panics and the process ends with status 2. On an
`ErrCount` text that is not an integer it does return an error. -/
theorem updateIp_panics_on_missing_node :
    (updateIp bareWorld "5.6.7.8" "www" "example.com" "secret").res = .halt .panicked
      ∧ (updateIp garbledWorld "5.6.7.8" "www" "example.com" "secret").res = .halt .panicked
      ∧ exitStatus (Run sampleConfig bareWorld).res = 2
      ∧ exitStatus (Run sampleConfig garbledWorld).res = 2
      ∧ (updateIp wordyWorld "5.6.7.8" "www" "example.com" "secret").res
          = .ok (some "Failed to convert namecheap response error count to integer") := by
  decide

/-- Claim C8: for a valid configuration whose resolver endpoints all fail (the
empty list included), the resolved address is the empty string, the run
terminates with status 1, sends no update request and writes no file. -/
theorem all_resolvers_failing_is_fatal (cfg : Config) (w : World)
    (h1 : cfg.host ≠ "") (h2 : cfg.domain ≠ "") (h3 : cfg.token ≠ "")
    (hfail : ∀ i d, cfg.ipResolvers[i]? = some d → (w.httpGet i d).succeeds = false) :
    (resolve cfg.verbose w 0 cfg.ipResolvers).res = .ok ""
      ∧ (Run cfg w).res = .halt (.exit 1) ∧ exitStatus (Run cfg w).res = 1
      ∧ updates (Run cfg w).trace = [] ∧ writes (Run cfg w).trace = [] := by
  obtain ⟨hp1, hp2, -, -⟩ := printConfig_quiet cfg
  obtain ⟨hl1, hl2, -⟩ := loadCache_quiet cfg w
  obtain ⟨ip2, -, hr1, hr2, -, -⟩ := resolve_total cfg.verbose w cfg.ipResolvers 0
  have hr := (resolve_all_fail cfg.verbose w cfg.ipResolvers 0
    (fun k d hk => by simpa using hfail k d hk)).1
  refine ⟨hr, ?_⟩
  rcases loadCache_res cfg w with ⟨oldIp, hc⟩ | hc
  · rw [run_unresolved cfg w h1 h2 h3 oldIp hc hr]
    simp [hp1, hp2, hl1, hl2, hr1, hr2, updates, writes, exitStatus]
  · rw [run_cache_halt cfg w h1 h2 h3 _ hc]
    simp [hp1, hp2, hl1, hl2, exitStatus]

/-- Claim C8 on two resolvers that both answer 503. -/
theorem all_resolvers_failing_is_fatal_witness :
    (resolve sampleConfig.verbose downWorld 0 sampleConfig.ipResolvers).res = .ok ""
      ∧ (Run sampleConfig downWorld).res = .halt (.exit 1)
      ∧ exitStatus (Run sampleConfig downWorld).res = 1
      ∧ updates (Run sampleConfig downWorld).trace = []
      ∧ writes (Run sampleConfig downWorld).trace = [] :=
  all_resolvers_failing_is_fatal sampleConfig downWorld (by decide) (by decide) (by decide)
    (fun _ _ _ => rfl)

/-- Claim C10: `updateIp` builds the same request and returns the same result
for any two values of its `ip` argument; the one request it sends is built from
host, domain and token alone. -/
theorem updateIp_ignores_ip (w : World) (ip1 ip2 host domain token : String) :
    updateIp w ip1 host domain token = updateIp w ip2 host domain token
      ∧ (updateIp w ip1 host domain token).trace = [.clientDo (updateRequest host domain token)]
      ∧ updateRequest host domain token
          = ⟨"GET", "https://dynamicdns.park-your-domain.com/update",
              [("host", [host]), ("domain", [domain]), ("password", [token])],
              [("Accept", "application/json")]⟩ :=
  ⟨rfl, updateIp_trace w ip1 host domain token, rfl⟩

/-- Claim C9: when the endpoints before `d` all fail and `d` answers status 200
with a body that trims to the empty string, the scan stops at `d`: no endpoint
after `d` is queried, whatever it would answer, the resolved address is the
empty string, and the run terminates with status 1 printing the
resolution-failure message last. -/
theorem blank_answer_ends_scan (cfg : Config) (w : World) (pre post : List String)
    (d body oldIp : String)
    (h1 : cfg.host ≠ "") (h2 : cfg.domain ≠ "") (h3 : cfg.token ≠ "")
    (hlist : cfg.ipResolvers = pre ++ d :: post)
    (hpre : ∀ k e, pre[k]? = some e → (w.httpGet k e).succeeds = false)
    (hd : w.httpGet pre.length d = .response 200 (.ok body)) (hblank : TrimSpace body = "")
    (hc : (loadCache cfg w).res = .ok oldIp) :
    gets (Run cfg w).trace = pre ++ [d]
      ∧ (resolve cfg.verbose w 0 cfg.ipResolvers).res = .ok ""
      ∧ (Run cfg w).res = .halt (.exit 1) ∧ exitStatus (Run cfg w).res = 1
      ∧ (Run cfg w).trace.getLast?
          = some (.print "Failed to resolve IP using any provided ip resolvers!\n") := by
  obtain ⟨-, -, hp3, -⟩ := printConfig_quiet cfg
  obtain ⟨-, -, hl3⟩ := loadCache_quiet cfg w
  obtain ⟨hr, hg⟩ := resolve_stops_at cfg.verbose w d body post pre 0
    (fun k e hk => by simpa using hpre k e hk) (by simpa using hd)
  rw [← hlist, hblank] at hr
  rw [← hlist] at hg
  refine ⟨?_, hr, ?_⟩
  · rw [run_unresolved cfg w h1 h2 h3 oldIp hc hr]
    simp [hp3, hl3, hg, gets]
  · rw [run_unresolved cfg w h1 h2 h3 oldIp hc hr]
    simp [exitStatus]

/-- Claim C9 on a first endpoint answering 200 with a body of one newline and a
second endpoint that would answer `5.6.7.8`: only the first is queried and the
run terminates with status 1. -/
theorem blank_answer_ends_scan_witness :
    blankWorld.httpGet 1 "http://checkip.amazonaws.com" = .response 200 (.ok "5.6.7.8\n")
      ∧ gets (Run sampleConfig blankWorld).trace = ["http://icanhazip.com"]
      ∧ (resolve sampleConfig.verbose blankWorld 0 sampleConfig.ipResolvers).res = .ok ""
      ∧ (Run sampleConfig blankWorld).res = .halt (.exit 1)
      ∧ exitStatus (Run sampleConfig blankWorld).res = 1
      ∧ (Run sampleConfig blankWorld).trace.getLast?
          = some (.print "Failed to resolve IP using any provided ip resolvers!\n") :=
  ⟨rfl, blank_answer_ends_scan sampleConfig blankWorld [] ["http://checkip.amazonaws.com"]
    "http://icanhazip.com" "\n" "" (by decide) (by decide) (by decide) rfl
    (fun k e hk => by simp at hk) rfl (by decide) (by decide)⟩

/-- Claim C7: for a valid configuration with a cache file path, if a first run
terminates with status 0 and a second run meets the same resolver answers and
the cache file as the first run left it (holding what the first run wrote, or
unchanged if it wrote nothing), then the second run reads back a cached address
equal to the resolved address, prints "IPs are the same..." last, terminates
with status 0, sends no update request and writes no file. -/
theorem second_run_takes_same_path (cfg : Config) (w1 w2 : World)
    (h1 : cfg.host ≠ "") (h2 : cfg.domain ≠ "") (h3 : cfg.token ≠ "")
    (hcf : cfg.cacheFile ≠ "")
    (hfirst : exitStatus (Run cfg w1).res = 0)
    (hget : w2.httpGet = w1.httpGet)
    (hwritten : ∀ data perm, (cfg.cacheFile, data, perm) ∈ writes (Run cfg w1).trace →
      w2.isNotExist cfg.cacheFile = false ∧ w2.readFile cfg.cacheFile = .ok data)
    (hkept : writes (Run cfg w1).trace = [] →
      w2.isNotExist cfg.cacheFile = w1.isNotExist cfg.cacheFile
        ∧ w2.readFile cfg.cacheFile = w1.readFile cfg.cacheFile) :
    ∃ ip, (loadCache cfg w2).res = .ok ip
      ∧ (resolve cfg.verbose w2 0 cfg.ipResolvers).res = .ok ip
      ∧ (Run cfg w2).res = .halt (.exit 0) ∧ exitStatus (Run cfg w2).res = 0
      ∧ (Run cfg w2).trace.getLast? = some (.print "IPs are the same...\n")
      ∧ updates (Run cfg w2).trace = [] ∧ writes (Run cfg w2).trace = [] := by
  obtain ⟨hp1, hp2, -, -⟩ := printConfig_quiet cfg
  obtain ⟨hl1, hl2, -⟩ := loadCache_quiet cfg w1
  obtain ⟨hm1, hm2, -⟩ := loadCache_quiet cfg w2
  obtain ⟨ip, hr, hr1, hr2, -, htrim⟩ := resolve_total cfg.verbose w1 cfg.ipResolvers 0
  have hres2 :
      resolve cfg.verbose w2 0 cfg.ipResolvers = resolve cfg.verbose w1 0 cfg.ipResolvers :=
    resolve_congr cfg.verbose w1 w2 hget cfg.ipResolvers 0
  -- what the second run does once it has read back `ip`
  have finish : ip ≠ "" → (loadCache cfg w2).res = .ok ip →
      ∃ ip, (loadCache cfg w2).res = .ok ip
        ∧ (resolve cfg.verbose w2 0 cfg.ipResolvers).res = .ok ip
        ∧ (Run cfg w2).res = .halt (.exit 0) ∧ exitStatus (Run cfg w2).res = 0
        ∧ (Run cfg w2).trace.getLast? = some (.print "IPs are the same...\n")
        ∧ updates (Run cfg w2).trace = [] ∧ writes (Run cfg w2).trace = [] := by
    intro hne hc2
    have hr2w : (resolve cfg.verbose w2 0 cfg.ipResolvers).res = .ok ip := by rw [hres2]; exact hr
    refine ⟨ip, hc2, hr2w, ?_⟩
    rw [run_same cfg w2 h1 h2 h3 ip hc2 hr2w hne, hres2]
    simp [exitStatus, hp1, hp2, hm1, hm2, hr1, hr2, updates, writes]
  rcases loadCache_res cfg w1 with ⟨oldIp, hc⟩ | hc
  · by_cases hne : ip = ""
    · subst hne
      rw [run_unresolved cfg w1 h1 h2 h3 oldIp hc hr] at hfirst
      simp [exitStatus] at hfirst
    · by_cases hd : oldIp = ip
      · subst hd
        have hw : writes (Run cfg w1).trace = [] := by
          rw [run_same cfg w1 h1 h2 h3 oldIp hc hr hne]
          simp [hp2, hl2, hr2, writes]
        obtain ⟨k1, k2⟩ := hkept hw
        exact finish hne (by rw [loadCache_congr cfg w1 w2 k1 k2]; exact hc)
      · obtain ⟨u1, u2, u3, u4, u5⟩ := run_update cfg w1 h1 h2 h3 oldIp ip hc hr hne hd
        rcases updateIp_res w1 ip cfg.host cfg.domain cfg.token with hu | ⟨r, hu⟩
        · rw [u1 _ hu] at hfirst
          simp [exitStatus] at hfirst
        · cases r with
          | some msg =>
            rw [u2 msg hu] at hfirst
            simp [exitStatus] at hfirst
          | none =>
            cases hw : w1.writeFile cfg.cacheFile ip 0o644 with
            | some werr =>
              rw [u5 werr hu hcf hw] at hfirst
              simp [exitStatus] at hfirst
            | none =>
              have hmem : (cfg.cacheFile, ip, 0o644) ∈ writes (Run cfg w1).trace := by
                rw [u4 hu hcf hw]
                simp [hp2, hl2, hr2, writes]
              obtain ⟨k1, k2⟩ := hwritten ip 0o644 hmem
              have hc2 := loadCache_of_file cfg w2 ip hcf k1 k2
              rw [htrim] at hc2
              exact finish hne hc2
  · rw [run_cache_halt cfg w1 h1 h2 h3 _ hc] at hfirst
    simp [exitStatus] at hfirst

/-- Claim C7 on a first run without cache file that resolves `5.6.7.8`, updates
and writes the cache file, and a second run that finds `5.6.7.8` in it. -/
theorem second_run_takes_same_path_witness :
    exitStatus (Run sampleConfig freshWorld).res = 0
      ∧ ∃ ip, (loadCache sampleConfig cachedWorld).res = .ok ip
        ∧ (resolve sampleConfig.verbose cachedWorld 0 sampleConfig.ipResolvers).res = .ok ip
        ∧ (Run sampleConfig cachedWorld).res = .halt (.exit 0)
        ∧ exitStatus (Run sampleConfig cachedWorld).res = 0
        ∧ (Run sampleConfig cachedWorld).trace.getLast? = some (.print "IPs are the same...\n")
        ∧ updates (Run sampleConfig cachedWorld).trace = []
        ∧ writes (Run sampleConfig cachedWorld).trace = [] :=
  ⟨by decide, second_run_takes_same_path sampleConfig freshWorld cachedWorld (by decide)
    (by decide) (by decide) (by decide) (by decide) rfl
    (fun data perm hmem => by
      have hw : writes (Run sampleConfig freshWorld).trace = [("ip-cache", "5.6.7.8", 0o644)] := by
        decide
      rw [hw] at hmem
      simp at hmem
      obtain ⟨-, hdata, -⟩ := hmem
      subst hdata
      exact ⟨rfl, rfl⟩)
    (fun hnil => by
      have hw : writes (Run sampleConfig freshWorld).trace = [("ip-cache", "5.6.7.8", 0o644)] := by
        decide
      rw [hw] at hnil
      simp at hnil)⟩

end DdnsUpdater
